import Mathlib

/-!
Verification of the interactive 3D aircraft viewer.

Shallow embedding of the logic in src/App.tsx, src/hooks/useFullscreen.ts and
src/components/LoadingProvider.tsx. JavaScript numbers are modelled as exact
rationals, the browser localStorage as a partial map from string keys to stored
entries (an entry either deserializes to a supported scalar value or is
malformed), and the DOM fullscreen surface as a record of the four
fullscreen-element accessors and the eight vendor request/exit methods.
-/

namespace AirplaneViewer

/-! ### Overlay projector (App.tsx, InteractivePoint, lines 108 to 114)

Per frame the marker scale is computed as
scaleFactor = Math.min(1 / (distance * 0.2), 0.8) * size. -/

/-- Per-frame marker scale from App.tsx line 111:
the distance term 1 / (distance * 0.2) is capped at 0.8 and then multiplied by
the user size preference. -/
def scaleFactor (distance size : ℚ) : ℚ :=
  min (1 / (distance * (2 / 10))) (8 / 10) * size

/-! ### Fullscreen hook (src/hooks/useFullscreen.ts) -/

/-- The platform state visible to the fullscreen hook: the four
fullscreen-element accessors (some e means a non-null element) and the presence
of the four request and four exit method families. -/
structure FsPlatform where
  fullscreenElement : Option Nat
  mozFullScreenElement : Option Nat
  webkitFullscreenElement : Option Nat
  msFullscreenElement : Option Nat
  hasRequestFullscreen : Bool
  hasMozRequestFullScreen : Bool
  hasWebkitRequestFullscreen : Bool
  hasMsRequestFullscreen : Bool
  hasExitFullscreen : Bool
  hasMozCancelFullScreen : Bool
  hasWebkitExitFullscreen : Bool
  hasMsExitFullscreen : Bool
deriving DecidableEq

/-- Construction-time probe, useFullscreen.ts lines 20 to 27: the useState
initializer returns the truthiness of
doc.fullscreenElement, else doc.mozFullScreenElement, else
doc.webkitFullscreenElement, else doc.msFullscreenElement. -/
def initialProbe (p : FsPlatform) : Bool :=
  p.fullscreenElement.isSome || p.mozFullScreenElement.isSome ||
    p.webkitFullscreenElement.isSome || p.msFullscreenElement.isSome

/-- Change-handler probe, useFullscreen.ts lines 64 to 72: the
fullscreenchange handler recomputes the same four-accessor disjunction and
stores it. -/
def changeHandlerProbe (p : FsPlatform) : Bool :=
  p.fullscreenElement.isSome || p.mozFullScreenElement.isSome ||
    p.webkitFullscreenElement.isSome || p.msFullscreenElement.isSome

/-- The eight platform calls the toggle can issue. -/
inductive FsCall
  | requestFullscreen
  | mozRequestFullScreen
  | webkitRequestFullscreen
  | msRequestFullscreen
  | exitFullscreen
  | mozCancelFullScreen
  | webkitExitFullscreen
  | msExitFullscreen
deriving DecidableEq

/-- The four request-family calls, in the priority order of the source. -/
def requestCalls : List FsCall :=
  [.requestFullscreen, .mozRequestFullScreen, .webkitRequestFullscreen,
    .msRequestFullscreen]

/-- The four exit-family calls, in the priority order of the source. -/
def exitCalls : List FsCall :=
  [.exitFullscreen, .mozCancelFullScreen, .webkitExitFullscreen,
    .msExitFullscreen]

/-- toggleFullscreen, useFullscreen.ts lines 29 to 61. The hook closes over
its cached isFullscreen state, so the model takes it as an argument, but the
source recomputes isCurrentlyFullscreen from the document accessors and never
reads the cached state; the returned value is the platform call issued (none
when no probed method family exists). -/
def toggleFullscreen (cachedIsFullscreen : Bool) (p : FsPlatform) :
    Option FsCall :=
  let isCurrentlyFullscreen :=
    p.fullscreenElement.isSome || p.mozFullScreenElement.isSome ||
      p.webkitFullscreenElement.isSome || p.msFullscreenElement.isSome
  if !isCurrentlyFullscreen then
    if p.hasRequestFullscreen then some .requestFullscreen
    else if p.hasMozRequestFullScreen then some .mozRequestFullScreen
    else if p.hasWebkitRequestFullscreen then some .webkitRequestFullscreen
    else if p.hasMsRequestFullscreen then some .msRequestFullscreen
    else none
  else
    if p.hasExitFullscreen then some .exitFullscreen
    else if p.hasMozCancelFullScreen then some .mozCancelFullScreen
    else if p.hasWebkitExitFullscreen then some .webkitExitFullscreen
    else if p.hasMsExitFullscreen then some .msExitFullscreen
    else none

/-- Platform state observed after a toggle: when the toggle issues no call the
platform is untouched; when it issues a call the platform reacts in some way
modelled by the grant parameter (the DOM side is asynchronous and outside the
repository). -/
def observedAfterToggle (grant : FsCall → FsPlatform → FsPlatform)
    (cached : Bool) (p : FsPlatform) : FsPlatform :=
  match toggleFullscreen cached p with
  | none => p
  | some c => grant c p

/-! ### Selection and rotation gating (App.tsx, App component) -/

/-- The App state the selection invariant is about: the persisted auto-rotate
preference (isAutoRotating, line 267) and the active hotspot (activePoint,
line 271, a single nullable value holding the clicked point id). -/
structure AppState where
  isAutoRotating : Bool
  activePoint : Option Nat
deriving DecidableEq

/-- The marker-click and close events of the detail view. -/
inductive UIEvent
  | clickPoint (id : Nat)
  | closeInfoBox
deriving DecidableEq

/-- Event handling: handlePointClick (line 315) stores the clicked point in
activePoint; handleCloseInfoBox (line 319) clears it. -/
def uiStep (st : AppState) : UIEvent → AppState
  | .clickPoint i => { st with activePoint := some i }
  | .closeInfoBox => { st with activePoint := none }

/-- Folding a sequence of events over an initial state. -/
def runEvents (st : AppState) (evs : List UIEvent) : AppState :=
  evs.foldl uiStep st

/-- Line 311: actualIsRotating = isAutoRotating AND not activePoint; this is
the auto-rotation flag passed to the Airplane model. -/
def actualIsRotating (st : AppState) : Bool :=
  st.isAutoRotating && !st.activePoint.isSome

/-- Line 561: the OrbitControls enabled prop is the negation of activePoint. -/
def orbitEnabled (st : AppState) : Bool :=
  !st.activePoint.isSome

/-- Number of simultaneously active hotspots held by the state. -/
def activeCount (st : AppState) : Nat :=
  match st.activePoint with
  | none => 0
  | some _ => 1

/-! ### Preference store (App.tsx, useLocalStorage, lines 588 to 610) -/

/-- A supported preference value: the nine fields are booleans and numbers. -/
inductive PrefValue
  | bool (b : Bool)
  | num (q : ℚ)
deriving DecidableEq

/-- A persisted localStorage entry as seen through JSON.parse: either it
deserializes to a supported value, or JSON.parse throws on it (malformed). -/
inductive StoredEntry
  | valid (v : PrefValue)
  | malformed
deriving DecidableEq

/-- The browser localStorage, as a partial map from keys to stored entries. -/
abbrev Storage : Type := String → Option StoredEntry

/-- localStorage.getItem. -/
def Storage.getItem (s : Storage) (key : String) : Option StoredEntry :=
  s key

/-- localStorage.setItem with the JSON serialization of a supported value;
for booleans and finite numbers JSON.stringify and JSON.parse are exact
inverses, so the entry stored is valid v. -/
def Storage.setItem (s : Storage) (key : String) (v : PrefValue) : Storage :=
  fun k => if k = key then some (.valid v) else s k

/-- localStorage.removeItem (total: the Web Storage API defines no failure for
removal). -/
def Storage.removeItem (s : Storage) (key : String) : Storage :=
  fun k => if k = key then none else s k

/-- The storage of a fresh session: no persisted keys. -/
def emptyStorage : Storage := fun _ => none

/-- The in-memory mirror of one useLocalStorage hook instance. -/
structure HookState where
  storedValue : PrefValue
deriving DecidableEq

/-- The useState initializer, lines 589 to 597: read the item at key; if it is
absent return initialValue, otherwise JSON.parse it, and on a parse failure
(caught, logged) return initialValue. -/
def hydrate (s : Storage) (key : String) (initialValue : PrefValue) :
    PrefValue :=
  match s.getItem key with
  | some (.valid v) => v
  | some .malformed => initialValue
  | none => initialValue

/-- setValue, lines 599 to 607: update the in-memory mirror first, then try to
persist; a setItem failure (writeFails) is caught and logged, and the mirror is
not rolled back. Returns the new hook state and the new storage. -/
def setValue (key : String) (writeFails : Bool) (s : Storage)
    (v : PrefValue) : HookState × Storage :=
  if writeFails then ({ storedValue := v }, s)
  else ({ storedValue := v }, s.setItem key v)

/-- The value the hook reports within the session: the in-memory mirror. -/
def readValue (st : HookState) : PrefValue :=
  st.storedValue

/-- The nine persisted preference keys, in the order of the useLocalStorage
calls at App.tsx lines 267 to 276. -/
def prefKeys : List String :=
  ["isAutoRotating", "ambientIntensity", "directionalIntensity", "lightAngle",
    "showPoints", "pointSize", "rotationSpeed", "isPropellerSpinning",
    "propellerSpeed"]

/-- The nine viewer preference fields held in memory by the App component. -/
structure ViewerPrefs where
  isAutoRotating : PrefValue
  ambientIntensity : PrefValue
  directionalIntensity : PrefValue
  lightAngle : PrefValue
  showPoints : PrefValue
  pointSize : PrefValue
  rotationSpeed : PrefValue
  isPropellerSpinning : PrefValue
  propellerSpeed : PrefValue
deriving DecidableEq

/-- The documented default of every field, from the initialValue argument of
each useLocalStorage call (lines 267 to 276). -/
def defaultPrefs : ViewerPrefs where
  isAutoRotating := .bool true
  ambientIntensity := .num 0
  directionalIntensity := .num 2
  lightAngle := .num 70
  showPoints := .bool true
  pointSize := .num (6 / 10)
  rotationSpeed := .num (3 / 10)
  isPropellerSpinning := .bool true
  propellerSpeed := .num 15

/-- Hydration of the nine hooks at component mount, each from its own key with
its own default (lines 267 to 276). -/
def hydrateApp (s : Storage) : ViewerPrefs where
  isAutoRotating := hydrate s "isAutoRotating" (.bool true)
  ambientIntensity := hydrate s "ambientIntensity" (.num 0)
  directionalIntensity := hydrate s "directionalIntensity" (.num 2)
  lightAngle := hydrate s "lightAngle" (.num 70)
  showPoints := hydrate s "showPoints" (.bool true)
  pointSize := hydrate s "pointSize" (.num (6 / 10))
  rotationSpeed := hydrate s "rotationSpeed" (.num (3 / 10))
  isPropellerSpinning := hydrate s "isPropellerSpinning" (.bool true)
  propellerSpeed := hydrate s "propellerSpeed" (.num 15)

/-- The preference-related App state: the nine in-memory fields and the
persistent storage. -/
structure AppPrefsState where
  prefs : ViewerPrefs
  storage : Storage

/-- A per-key write outcome: each setter persists through setItem, whose
failure (failSet key) is caught inside setValue without rolling back the
in-memory update. -/
def writePref (failSet : String → Bool) (s : Storage) (key : String)
    (v : PrefValue) : Storage :=
  if failSet key then s else s.setItem key v

/-- resetSettings, App.tsx lines 288 to 307: the nine setters are called with
the default values in source order (each updates its in-memory field and tries
to persist), then the nine keys are removed from localStorage in source order.
failSet marks the keys whose setItem call fails; removal cannot fail under the
Web Storage API. -/
def resetSettings (failSet : String → Bool) (st : AppPrefsState) :
    AppPrefsState :=
  let s1 := writePref failSet st.storage "isAutoRotating" (.bool true)
  let s2 := writePref failSet s1 "ambientIntensity" (.num 0)
  let s3 := writePref failSet s2 "directionalIntensity" (.num 2)
  let s4 := writePref failSet s3 "lightAngle" (.num 70)
  let s5 := writePref failSet s4 "showPoints" (.bool true)
  let s6 := writePref failSet s5 "pointSize" (.num (6 / 10))
  let s7 := writePref failSet s6 "rotationSpeed" (.num (3 / 10))
  let s8 := writePref failSet s7 "isPropellerSpinning" (.bool true)
  let s9 := writePref failSet s8 "propellerSpeed" (.num 15)
  let s10 := s9.removeItem "isAutoRotating"
  let s11 := s10.removeItem "ambientIntensity"
  let s12 := s11.removeItem "directionalIntensity"
  let s13 := s12.removeItem "lightAngle"
  let s14 := s13.removeItem "showPoints"
  let s15 := s14.removeItem "pointSize"
  let s16 := s15.removeItem "rotationSpeed"
  let s17 := s16.removeItem "isPropellerSpinning"
  let s18 := s17.removeItem "propellerSpeed"
  { prefs :=
      { isAutoRotating := .bool true
        ambientIntensity := .num 0
        directionalIntensity := .num 2
        lightAngle := .num 70
        showPoints := .bool true
        pointSize := .num (6 / 10)
        rotationSpeed := .num (3 / 10)
        isPropellerSpinning := .bool true
        propellerSpeed := .num 15 }
    storage := s18 }

/-! ### Airplane frame driver (App.tsx, Airplane, lines 160 to 191) -/

/-- The two fixed names looked up in the loaded model (line 163). -/
def bladeNames : List String := ["Prop_Blade", "Prop_"]

/-- Blade resolution after model load, lines 162 to 173: each fixed name is
looked up in the scene node graph and the found parts are collected; a missing
name is simply skipped. -/
def findBlades (sceneNames : List String) : List String :=
  bladeNames.filter (fun n => sceneNames.contains n)

/-- The mutable rotation state touched by the per-frame callback: the yaw of
the whole model group and the roll of each resolved blade part. -/
structure AirplaneFrameState where
  modelRotationY : ℚ
  bladeRotationsZ : List ℚ
deriving DecidableEq

/-- The useFrame callback, lines 179 to 191: if auto-rotation is enabled the
model yaw is advanced by delta * rotationSpeed; then, independently, if
propeller spin is enabled and some blades were resolved, the roll of every
blade is advanced by delta * propellerSpeed. -/
def airplaneFrame (isAutoRotating isPropellerSpinning : Bool)
    (rotationSpeed propellerSpeed delta : ℚ) (st : AirplaneFrameState) :
    AirplaneFrameState :=
  let st1 :=
    if isAutoRotating then
      { st with modelRotationY := st.modelRotationY + delta * rotationSpeed }
    else st
  if isPropellerSpinning then
    if 0 < st1.bladeRotationsZ.length then
      { st1 with
          bladeRotationsZ :=
            st1.bladeRotationsZ.map (fun z => z + delta * propellerSpeed) }
    else st1
  else st1

/-- C1: for every camera-to-hotspot distance d greater than 0 and every
nonnegative size preference s, the per-frame marker scale equals
min(1 / (d * 0.2), 0.8) * s, is nonnegative, and is monotonically
non-increasing as the distance increases with s held fixed. -/
theorem scaleFactor_spec (d₁ d₂ s : ℚ) (hd₁ : 0 < d₁) (hle : d₁ ≤ d₂)
    (hs : 0 ≤ s) :
    scaleFactor d₁ s = min (1 / (d₁ * (2 / 10))) (8 / 10) * s ∧
    0 ≤ scaleFactor d₁ s ∧
    scaleFactor d₂ s ≤ scaleFactor d₁ s := by
  have hpos₁ : (0 : ℚ) < d₁ * (2 / 10) := by
    have : (0 : ℚ) < (2 / 10 : ℚ) := by norm_num
    exact mul_pos hd₁ this
  refine ⟨rfl, ?_, ?_⟩
  · apply mul_nonneg _ hs
    apply le_min
    · exact le_of_lt (one_div_pos.mpr hpos₁)
    · norm_num
  · apply mul_le_mul_of_nonneg_right _ hs
    apply min_le_min _ le_rfl
    apply one_div_le_one_div_of_le hpos₁
    have : (0 : ℚ) ≤ (2 / 10 : ℚ) := by norm_num
    exact mul_le_mul_of_nonneg_right hle this

/-- Witness for C1 at d₁ = 5, d₂ = 10, s = 1. -/
theorem scaleFactor_spec_witness :
    scaleFactor 5 1 = min (1 / (5 * (2 / 10))) (8 / 10) * 1 ∧
    0 ≤ scaleFactor 5 1 ∧
    scaleFactor 10 1 ≤ scaleFactor 5 1 :=
  scaleFactor_spec 5 10 1 (by norm_num) (by norm_num) (by norm_num)

/-- C2: after any sequence of marker-click and close events at most one
hotspot is active; auto-rotation is enabled iff the persisted preference is
true and no hotspot is active; while a hotspot is active both auto-rotation
and free orbiting are disabled; and closing the detail view restores the
preference-driven rotation and re-enables orbiting. -/
theorem selection_rotation_invariant (st0 : AppState) (evs : List UIEvent) :
    activeCount (runEvents st0 evs) ≤ 1 ∧
    (actualIsRotating (runEvents st0 evs) = true ↔
      (runEvents st0 evs).isAutoRotating = true ∧
        (runEvents st0 evs).activePoint = none) ∧
    ((runEvents st0 evs).activePoint.isSome = true →
      actualIsRotating (runEvents st0 evs) = false ∧
        orbitEnabled (runEvents st0 evs) = false) ∧
    actualIsRotating (uiStep (runEvents st0 evs) .closeInfoBox) =
      (runEvents st0 evs).isAutoRotating ∧
    orbitEnabled (uiStep (runEvents st0 evs) .closeInfoBox) = true := by
  rcases runEvents st0 evs with ⟨ar, ap⟩
  cases ap <;> cases ar <;>
    simp [activeCount, actualIsRotating, orbitEnabled, uiStep]

/-- Witness for C2 on the initial state with the preference on, after clicking
hotspot 2 and closing it. -/
theorem selection_rotation_invariant_witness :
    activeCount (runEvents ⟨true, none⟩ [.clickPoint 2, .closeInfoBox]) ≤ 1 ∧
    (actualIsRotating (runEvents ⟨true, none⟩ [.clickPoint 2, .closeInfoBox])
        = true ↔
      (runEvents ⟨true, none⟩
        [.clickPoint 2, .closeInfoBox]).isAutoRotating = true ∧
        (runEvents ⟨true, none⟩
          [.clickPoint 2, .closeInfoBox]).activePoint = none) ∧
    ((runEvents ⟨true, none⟩
        [.clickPoint 2, .closeInfoBox]).activePoint.isSome = true →
      actualIsRotating (runEvents ⟨true, none⟩
          [.clickPoint 2, .closeInfoBox]) = false ∧
        orbitEnabled (runEvents ⟨true, none⟩
          [.clickPoint 2, .closeInfoBox]) = false) ∧
    actualIsRotating (uiStep (runEvents ⟨true, none⟩
        [.clickPoint 2, .closeInfoBox]) .closeInfoBox) =
      (runEvents ⟨true, none⟩
        [.clickPoint 2, .closeInfoBox]).isAutoRotating ∧
    orbitEnabled (uiStep (runEvents ⟨true, none⟩
        [.clickPoint 2, .closeInfoBox]) .closeInfoBox) = true :=
  selection_rotation_invariant ⟨true, none⟩ [.clickPoint 2, .closeInfoBox]

/-- C3: setting a preference and then reading it within the same session
returns exactly the value set, for every key, every supported value, every
default and whether or not the persistence write failed; moreover when the
write succeeded, re-hydrating that key from storage with any default also
returns the value. -/
theorem pref_set_get_round_trip (key : String) (writeFails : Bool)
    (s : Storage) (v d : PrefValue) :
    readValue (setValue key writeFails s v).1 = v ∧
    (writeFails = false →
      hydrate (setValue key writeFails s v).2 key d = v) := by
  constructor
  · cases writeFails <;> rfl
  · intro h
    subst h
    simp [setValue, hydrate, Storage.getItem, Storage.setItem]

/-- Witness for C3: set rotationSpeed to 1.2 and read it back against the
default 0.3. -/
theorem pref_set_get_round_trip_witness :
    readValue (setValue "rotationSpeed" false emptyStorage
        (.num (12 / 10))).1 = .num (12 / 10) ∧
    (false = false →
      hydrate (setValue "rotationSpeed" false emptyStorage
        (.num (12 / 10))).2 "rotationSpeed" (.num (3 / 10)) =
        .num (12 / 10)) :=
  pref_set_get_round_trip "rotationSpeed" false emptyStorage
    (.num (12 / 10)) (.num (3 / 10))

/-- C4: when the persisted entry for a key is absent or fails to deserialize,
hydration returns the given default (hydration is total, so nothing is thrown
to the caller), and a fresh session with no persisted keys yields the nine
documented defaults. -/
theorem pref_defaults_on_fresh (s : Storage) (key : String) (d : PrefValue)
    (h : s key = none ∨ s key = some .malformed) :
    hydrate s key d = d ∧ hydrateApp emptyStorage = defaultPrefs := by
  constructor
  · rcases h with h | h <;> simp [hydrate, Storage.getItem, h]
  · rfl

/-- Witness for C4 on the fresh storage at the pointSize key. -/
theorem pref_defaults_on_fresh_witness :
    (emptyStorage "pointSize" = none ∨
      emptyStorage "pointSize" = some .malformed) ∧
    (hydrate emptyStorage "pointSize" (.num (6 / 10)) = .num (6 / 10) ∧
      hydrateApp emptyStorage = defaultPrefs) :=
  ⟨Or.inl rfl,
    pref_defaults_on_fresh emptyStorage "pointSize" (.num (6 / 10))
      (Or.inl rfl)⟩

/-- Pointwise effect of resetSettings on storage: every one of the nine
preference keys ends up removed (whatever the per-key write failures), and
every other key is untouched. -/
theorem resetSettings_storage (fs : String → Bool) (st : AppPrefsState)
    (k : String) :
    (resetSettings fs st).storage k =
      if k ∈ prefKeys then none else st.storage k := by
  by_cases hk : k ∈ prefKeys
  · rw [if_pos hk]
    simp only [prefKeys, List.mem_cons, List.not_mem_nil, or_false] at hk
    rcases hk with h | h | h | h | h | h | h | h | h <;> subst h <;>
      simp [resetSettings, Storage.removeItem]
  · rw [if_neg hk]
    simp only [prefKeys, List.mem_cons, List.not_mem_nil, or_false,
      not_or] at hk
    obtain ⟨h1, h2, h3, h4, h5, h6, h7, h8, h9⟩ := hk
    simp [resetSettings, Storage.removeItem, writePref, Storage.setItem,
      ite_apply, h1, h2, h3, h4, h5, h6, h7, h8, h9]

/-- C8: the fullscreen-status probe run at construction time and the probe run
in the change-notification handler inspect the same four fullscreen-element
accessors in the same order and agree on every platform state. -/
theorem probe_construction_eq_change_handler (p : FsPlatform) :
    changeHandlerProbe p = initialProbe p := rfl

/-- C5: from any preferences state, reset restores all nine fields to their
documented defaults and removes every persisted preference key; a second reset
(under any write-failure pattern) changes nothing: the in-memory fields and
the whole storage are identical to the state after the first reset. -/
theorem resetSettings_idempotent (fs fs' : String → Bool)
    (st : AppPrefsState) :
    (resetSettings fs st).prefs = defaultPrefs ∧
    (∀ k, k ∈ prefKeys → (resetSettings fs st).storage k = none) ∧
    (resetSettings fs' (resetSettings fs st)).prefs =
      (resetSettings fs st).prefs ∧
    ∀ k, (resetSettings fs' (resetSettings fs st)).storage k =
      (resetSettings fs st).storage k := by
  refine ⟨rfl, ?_, rfl, ?_⟩
  · intro k hk
    rw [resetSettings_storage, if_pos hk]
  · intro k
    simp only [resetSettings_storage]
    split_ifs <;> rfl

/-- Witness for C5 from the default state with no write failures. -/
theorem resetSettings_idempotent_witness :
    (resetSettings (fun _ => false)
      ⟨defaultPrefs, emptyStorage⟩).prefs = defaultPrefs ∧
    (∀ k, k ∈ prefKeys →
      (resetSettings (fun _ => false)
        ⟨defaultPrefs, emptyStorage⟩).storage k = none) ∧
    (resetSettings (fun _ => false) (resetSettings (fun _ => false)
      ⟨defaultPrefs, emptyStorage⟩)).prefs =
      (resetSettings (fun _ => false)
        ⟨defaultPrefs, emptyStorage⟩).prefs ∧
    ∀ k, (resetSettings (fun _ => false) (resetSettings (fun _ => false)
      ⟨defaultPrefs, emptyStorage⟩)).storage k =
      (resetSettings (fun _ => false)
        ⟨defaultPrefs, emptyStorage⟩).storage k :=
  resetSettings_idempotent (fun _ => false) (fun _ => false)
    ⟨defaultPrefs, emptyStorage⟩

/-- C6: the reset handles the nine keys independently and is not atomic; with
the persistence write failing for an arbitrary single key (the setItem failure
is caught inside that setter), every field is still restored to its default
and every persisted preference key is still removed. -/
theorem resetSettings_failure_isolation (badKey : String)
    (st : AppPrefsState) :
    (resetSettings (fun x => x == badKey) st).prefs = defaultPrefs ∧
    ∀ k, k ∈ prefKeys →
      (resetSettings (fun x => x == badKey) st).storage k = none := by
  refine ⟨rfl, ?_⟩
  intro k hk
  rw [resetSettings_storage, if_pos hk]

/-- Witness for C6 with the pointSize write failing, checked at the
rotationSpeed key. -/
theorem resetSettings_failure_isolation_witness :
    ((resetSettings (fun x => x == "pointSize")
        ⟨defaultPrefs, emptyStorage⟩).prefs = defaultPrefs ∧
      ∀ k, k ∈ prefKeys →
        (resetSettings (fun x => x == "pointSize")
          ⟨defaultPrefs, emptyStorage⟩).storage k = none) :=
  resetSettings_failure_isolation "pointSize" ⟨defaultPrefs, emptyStorage⟩

/-- C7: on a platform exposing none of the four request methods and none of
the four exit methods, the toggle issues no platform call (it is a total
function, so no exception is raised), and therefore, whatever reaction any
call would have produced, the probed fullscreen state after the toggle is
unchanged. -/
theorem toggleFullscreen_noop_without_api (cached : Bool) (p : FsPlatform)
    (h : p.hasRequestFullscreen = false ∧ p.hasMozRequestFullScreen = false ∧
      p.hasWebkitRequestFullscreen = false ∧
      p.hasMsRequestFullscreen = false ∧ p.hasExitFullscreen = false ∧
      p.hasMozCancelFullScreen = false ∧ p.hasWebkitExitFullscreen = false ∧
      p.hasMsExitFullscreen = false) :
    toggleFullscreen cached p = none ∧
    ∀ grant, initialProbe (observedAfterToggle grant cached p) =
      initialProbe p := by
  obtain ⟨h1, h2, h3, h4, h5, h6, h7, h8⟩ := h
  have ht : toggleFullscreen cached p = none := by
    simp [toggleFullscreen, h1, h2, h3, h4, h5, h6, h7, h8]
  refine ⟨ht, ?_⟩
  intro grant
  simp [observedAfterToggle, ht]

/-- Witness for C7 on a platform stub with no fullscreen API at all. -/
theorem toggleFullscreen_noop_without_api_witness :
    ((FsPlatform.mk none none none none false false false false false false
        false false).hasRequestFullscreen = false ∧
      (FsPlatform.mk none none none none false false false false false false
        false false).hasMozRequestFullScreen = false ∧
      (FsPlatform.mk none none none none false false false false false false
        false false).hasWebkitRequestFullscreen = false ∧
      (FsPlatform.mk none none none none false false false false false false
        false false).hasMsRequestFullscreen = false ∧
      (FsPlatform.mk none none none none false false false false false false
        false false).hasExitFullscreen = false ∧
      (FsPlatform.mk none none none none false false false false false false
        false false).hasMozCancelFullScreen = false ∧
      (FsPlatform.mk none none none none false false false false false false
        false false).hasWebkitExitFullscreen = false ∧
      (FsPlatform.mk none none none none false false false false false false
        false false).hasMsExitFullscreen = false) ∧
    (toggleFullscreen true (FsPlatform.mk none none none none false false
        false false false false false false) = none ∧
      ∀ grant, initialProbe (observedAfterToggle grant true
          (FsPlatform.mk none none none none false false false false false
            false false false)) =
        initialProbe (FsPlatform.mk none none none none false false false
          false false false false false)) :=
  ⟨⟨rfl, rfl, rfl, rfl, rfl, rfl, rfl, rfl⟩,
    toggleFullscreen_noop_without_api true
      (FsPlatform.mk none none none none false false false false false false
        false false)
      ⟨rfl, rfl, rfl, rfl, rfl, rfl, rfl, rfl⟩⟩

/-- C9: each frame with propeller spin enabled, the roll of every resolved
blade is advanced by propellerSpeed * delta, whether or not model
auto-rotation is gated off; when the fixed-name lookup resolved no blades the
propeller part of the frame is a no-op (the frame with spin enabled equals the
frame with spin disabled, and nothing fails); and a scene containing none of
the fixed blade names resolves no blades. -/
theorem propeller_driver_spec (isAutoRotating : Bool)
    (rotationSpeed propellerSpeed delta : ℚ) (st : AirplaneFrameState)
    (sceneNames : List String) :
    (airplaneFrame isAutoRotating true rotationSpeed propellerSpeed delta
        st).bladeRotationsZ =
      st.bladeRotationsZ.map (fun z => z + propellerSpeed * delta) ∧
    (st.bladeRotationsZ = [] →
      airplaneFrame isAutoRotating true rotationSpeed propellerSpeed delta
          st =
        airplaneFrame isAutoRotating false rotationSpeed propellerSpeed delta
          st) ∧
    ((∀ n, n ∈ bladeNames → sceneNames.contains n = false) →
      findBlades sceneNames = []) := by
  refine ⟨?_, ?_, ?_⟩
  · cases isAutoRotating <;>
      · simp only [airplaneFrame, if_true, if_false, Bool.false_eq_true,
          ite_true, ite_false]
        split_ifs with hlen
        · simp [mul_comm]
        · have hnil : st.bladeRotationsZ = [] := by
            cases hb : st.bladeRotationsZ with
            | nil => rfl
            | cons a l => rw [hb] at hlen; simp at hlen
          simp [hnil]
  · intro hnil
    cases isAutoRotating <;> simp [airplaneFrame, hnil]
  · intro h
    have hb1 : "Prop_Blade" ∉ sceneNames := by
      simpa using h "Prop_Blade" (by simp [bladeNames])
    have hb2 : "Prop_" ∉ sceneNames := by
      simpa using h "Prop_" (by simp [bladeNames])
    simp [findBlades, bladeNames, List.filter, hb1, hb2]

/-- Witness for C9 with two blades, spin enabled, at delta one sixtieth, over
a scene with no blade parts. -/
theorem propeller_driver_spec_witness :
    (airplaneFrame true true (3 / 10) 15 (1 / 60)
        ⟨0, [0, 1]⟩).bladeRotationsZ =
      ([0, 1] : List ℚ).map (fun z => z + 15 * (1 / 60)) ∧
    ((⟨0, [0, 1]⟩ : AirplaneFrameState).bladeRotationsZ = [] →
      airplaneFrame true true (3 / 10) 15 (1 / 60) ⟨0, [0, 1]⟩ =
        airplaneFrame true false (3 / 10) 15 (1 / 60) ⟨0, [0, 1]⟩) ∧
    ((∀ n, n ∈ bladeNames → (["Fuselage"] : List String).contains n = false) →
      findBlades ["Fuselage"] = []) :=
  propeller_driver_spec true (3 / 10) 15 (1 / 60) ⟨0, [0, 1]⟩ ["Fuselage"]

/-- C10: the choice between requesting and exiting fullscreen is determined
solely by a fresh probe of the four fullscreen-element accessors at call time:
any two cached hook states produce the same call, and the call issued is from
the request family exactly when the fresh probe reports not-fullscreen and
from the exit family exactly when it reports fullscreen. -/
theorem toggleFullscreen_fresh_probe (c₁ c₂ : Bool) (p : FsPlatform) :
    toggleFullscreen c₁ p = toggleFullscreen c₂ p ∧
    (initialProbe p = false →
      ∀ call, toggleFullscreen c₁ p = some call → call ∈ requestCalls) ∧
    (initialProbe p = true →
      ∀ call, toggleFullscreen c₁ p = some call → call ∈ exitCalls) := by
  refine ⟨rfl, ?_, ?_⟩
  · intro hp call hc
    simp only [initialProbe] at hp
    simp only [toggleFullscreen, hp] at hc
    split_ifs at hc <;> simp_all [requestCalls]
  · intro hp call hc
    simp only [initialProbe] at hp
    simp only [toggleFullscreen, hp] at hc
    split_ifs at hc <;> simp_all [exitCalls]

/-- Witness for C10 on a platform that is not fullscreen and supports the
unprefixed request method, with two different cached states. -/
theorem toggleFullscreen_fresh_probe_witness :
    toggleFullscreen true (FsPlatform.mk none none none none true true true
        true true true true true) =
      toggleFullscreen false (FsPlatform.mk none none none none true true
        true true true true true true) ∧
    (initialProbe (FsPlatform.mk none none none none true true true true true
        true true true) = false →
      ∀ call, toggleFullscreen true (FsPlatform.mk none none none none true
          true true true true true true true) = some call →
        call ∈ requestCalls) ∧
    (initialProbe (FsPlatform.mk none none none none true true true true true
        true true true) = true →
      ∀ call, toggleFullscreen true (FsPlatform.mk none none none none true
          true true true true true true true) = some call →
        call ∈ exitCalls) :=
  toggleFullscreen_fresh_probe true false
    (FsPlatform.mk none none none none true true true true true true true
      true)

end AirplaneViewer
